import Mathlib

/-!
# RateMyCourses: the professor data module

A shallow embedding of `src/data/professor.js`.  The two MongoDB collections
(`users`, `professors`) become lists of documents inside an explicit database
state `Db`; every exported `async function` becomes a function from a state to
a result paired with the state it leaves behind, so that the writes performed
before a `throw` stay visible.

Conventions.
* A JavaScript number is the rational it denotes; review ratings are
  integers.  The division of `$avg` is rounded as IEEE 754 binary64 does
  (`roundDouble`).  The subtraction in the comparator of `getTop3Professors`
  is exact here: the sort reads its sign only, and rounding a difference of
  two doubles keeps its sign.
* In `overallRating`, `none` is `null`; in `rating`, `none` is `null` or a
  missing field.
* Code that the module imports but that is not part of `src/` (the
  `inputCheck` helpers, the `mongodb` driver's `ObjectId`) is a parameter
  (`Env`) of every operation; `userData.getUser` is modelled from the
  specification.
-/

namespace RateMyCourses

/-! ## Values -/

/-- Values a caller can hand to an exported function. -/
inductive JsVal where
  | undefined
  | null
  | bool (b : Bool)
  | num (q : ℚ)
  | str (s : String)
  deriving DecidableEq

/-- BSON values stored in an `_id` field: a driver `ObjectId` (given by its
hexadecimal text) or a plain string.  The two kinds never compare equal in a
MongoDB query, whatever their text. -/
inductive BsonId where
  | oid (hex : String)
  | str (s : String)
  deriving DecidableEq

/-- The method `_id.toString()`. -/
def BsonId.toString : BsonId → String
  | .oid hex => hex
  | .str s => s

/-- What an exported function throws. -/
inductive Thrown where
  /-- a thrown string: the module's own `throw "..."` and the rejections of `inputCheck` -/
  | msg (s : String)
  /-- the `NotFound("user")` failure of `userData.getUser` -/
  | notFoundUser
  /-- the driver's `ObjectId(s)` rejecting `s` -/
  | bsonTypeError
  /-- a property read on `undefined` -/
  | typeError
  deriving DecidableEq

deriving instance DecidableEq for Except

/-! ## Documents -/

/-- The `profReview` record built by `addProfReview` and nested in both a user
and a professor document. -/
structure Review where
  _id : BsonId
  userId : String
  professorId : String
  username : String
  comment : String
  rating : Int
  deriving DecidableEq

/-- A document of the `users` collection (the fields this module uses). -/
structure UserDoc where
  _id : BsonId
  username : String
  reviews : List Review
  deriving DecidableEq

/-- A document of the `professors` collection.  `overallRating` is the field
`createProfessor` writes and the listings project; `rating` is the field the
`$set` stages of `addProfReview` and `removeProfReview` write. -/
structure ProfDoc where
  _id : BsonId
  professorName : Option String
  department : Option String
  introduction : Option String
  picture : Option String
  reviews : List Review
  courses : List String
  overallRating : Option ℚ
  rating : Option ℚ
  deriving DecidableEq

/-- The projection `getAllProfessors` asks for, with `_id` turned into a string. -/
structure ProfListing where
  _id : String
  professorName : Option String
  department : Option String
  introduction : Option String
  overallRating : Option ℚ
  picture : Option String
  deriving DecidableEq

/-- The second argument of `updateProf`. -/
structure UpdatedProf where
  professorName : Option String
  department : Option String
  introduction : Option String
  picture : Option String
  deriving DecidableEq

/-- The confirmation `{ deleted: true }`. -/
structure Deleted where
  deleted : Bool
  deriving DecidableEq

/-! ## Database state -/

/-- The two collections of `mongoCollections`. -/
inductive Coll where
  | users
  | professors
  deriving DecidableEq

/-- One access to the database. -/
inductive Access where
  /-- obtaining a collection: `await users()` or `await professors()` -/
  | handle (c : Coll)
  /-- the calls `find` and `findOne` -/
  | read (c : Coll)
  /-- the calls `insertOne`, `updateOne` and `deleteOne` -/
  | write (c : Coll)
  deriving DecidableEq

/-- The database: both collections, the number of `ObjectId`s the driver has
generated so far, and the accesses made so far (oldest first). -/
structure Db where
  users : List UserDoc
  professors : List ProfDoc
  nextId : Nat
  trace : List Access
  deriving DecidableEq

/-- Record one access. -/
def Db.log (s : Db) (a : Access) : Db :=
  { s with trace := s.trace ++ [a] }

/-! ## Imported code -/

/-- The functions of `./inputCheck` the module calls; each returns the cleaned
value or throws a string. -/
structure InputCheck where
  checkUserId : JsVal → Except String String
  checkComment : JsVal → Except String String
  checkRating : JsVal → Except String Int
  checkProfessorName : JsVal → Except String String
  checkDepartment : JsVal → Except String String
  checkIntroduction : JsVal → Except String String
  checkProfessorPicture : JsVal → Except String String

/-- Everything the module imports: `inputCheck`, and from the `mongodb` driver
the parsing of a string by `ObjectId(s)` (the hexadecimal text of the id, or
`none` when the driver throws) and the text of the `n`-th id that `ObjectId()`
or `insertOne` generates. -/
structure Env where
  inputCheck : InputCheck
  parseObjectId : String → Option String
  freshObjectId : Nat → String

/-- The call `ObjectId(s)` on a string. -/
def ObjectId (env : Env) (s : String) : Except Thrown BsonId :=
  match env.parseObjectId s with
  | some hex => .ok (.oid hex)
  | none => .error .bsonTypeError

/-- The call `ObjectId(v)` on a stored `_id`: an `ObjectId` instance is
returned as it is, a string is parsed. -/
def ObjectIdOf (env : Env) : BsonId → Except Thrown BsonId
  | .oid hex => .ok (.oid hex)
  | .str s => ObjectId env s

/-! ## Collection operations of the driver -/

/-- Apply `f` to the first document satisfying `q`. -/
def modifyFirst {α : Type} (q : α → Bool) (f : α → α) : List α → List α
  | [] => []
  | d :: ds => if q d then f d :: ds else d :: modifyFirst q f ds

/-- The result of `updateOne`. -/
structure UpdateResult (α : Type) where
  matchedCount : Nat
  modifiedCount : Nat
  docs : List α

/-- The call `collection.updateOne(q, f)`: the first matching document is
updated. -/
def updateOne {α : Type} [DecidableEq α] (q : α → Bool) (f : α → α) (docs : List α) :
    UpdateResult α :=
  match docs.find? q with
  | none => { matchedCount := 0, modifiedCount := 0, docs := docs }
  | some d =>
    { matchedCount := 1, modifiedCount := if f d = d then 0 else 1, docs := modifyFirst q f docs }

/-- The filter `{ _id: id }`. -/
def UserDoc.hasId (id : BsonId) (u : UserDoc) : Bool := decide (u._id = id)

/-- The filter `{ _id: id }`. -/
def ProfDoc.hasId (id : BsonId) (p : ProfDoc) : Bool := decide (p._id = id)

/-- The filter `{ 'reviews._id': { $eq: id } }`. -/
def ProfDoc.hasReview (id : BsonId) (p : ProfDoc) : Bool :=
  p.reviews.any (fun r => decide (r._id = id))

/-- The update `{ $push: { reviews: r } }` on a user. -/
def UserDoc.pushReview (r : Review) (u : UserDoc) : UserDoc :=
  { u with reviews := u.reviews ++ [r] }

/-- The update `{ $push: { reviews: r } }` on a professor. -/
def ProfDoc.pushReview (r : Review) (p : ProfDoc) : ProfDoc :=
  { p with reviews := p.reviews ++ [r] }

/-- The update `{ $pull: { reviews: { _id: id } } }`. -/
def ProfDoc.pullReview (id : BsonId) (p : ProfDoc) : ProfDoc :=
  { p with reviews := p.reviews.filter (fun r => !decide (r._id = id)) }

/-- Rounding to the nearest integer, a tie going to the even one. -/
def roundHalfEven (x : ℚ) : ℤ :=
  if x - ⌊x⌋ < 1 / 2 then ⌊x⌋
  else if 1 / 2 < x - ⌊x⌋ then ⌊x⌋ + 1
  else if ⌊x⌋ % 2 = 0 then ⌊x⌋ else ⌊x⌋ + 1

/-- The binary exponent of a non-zero rational: the `e` with
`2 ^ e ≤ |x| < 2 ^ (e + 1)`. -/
def ilog2 (x : ℚ) : ℤ :=
  if (2 : ℚ) ^ ((Nat.log2 x.num.natAbs : ℤ) - (Nat.log2 x.den : ℤ)) ≤ |x| then
    (Nat.log2 x.num.natAbs : ℤ) - (Nat.log2 x.den : ℤ)
  else (Nat.log2 x.num.natAbs : ℤ) - (Nat.log2 x.den : ℤ) - 1

/-- Rounding of a real result to IEEE 754 binary64, round to nearest, ties to
even: the result is a multiple of the unit in the last place of `x`, which is
`2 ^ (e - 52)` for a 53-bit significand and never below `2 ^ (-1074)`, the
spacing of the subnormal numbers.  Overflow to `Infinity` (results of
magnitude `2 ^ 1024` and more) is left out. -/
def roundDouble (x : ℚ) : ℚ :=
  if x = 0 then 0
  else (roundHalfEven (x / 2 ^ max (ilog2 x - 52) (-1074)) : ℚ) * 2 ^ max (ilog2 x - 52) (-1074)

/-- The finite binary64 numbers: `m * 2 ^ e` with a significand below `2 ^ 53`
in magnitude and an exponent from -1074 to 971. -/
def IsDouble (x : ℚ) : Prop :=
  ∃ m e : ℤ, |m| < 2 ^ 53 ∧ -1074 ≤ e ∧ e ≤ 971 ∧ x = (m : ℚ) * 2 ^ e

/-- The conversion of an integer to a double. -/
def toDouble (n : ℤ) : ℚ := roundDouble n

/-- The division of two doubles. -/
def fdiv (a b : ℚ) : ℚ := roundDouble (a / b)

/-- The accumulator `$avg`: `null` on the empty array; otherwise the server
takes the total of the values as a double and divides it by their count as a
double, which yields a double. -/
def avg : List Int → Option ℚ
  | [] => none
  | x :: xs => some (fdiv (toDouble (x :: xs).sum) (toDouble ((x :: xs).length : Nat)))

/-- The pipeline update `[{ $set: { rating: { $avg: '$reviews.rating' } } }]`. -/
def ProfDoc.setAvgRating (p : ProfDoc) : ProfDoc :=
  { p with rating := avg (p.reviews.map (fun r => r.rating)) }

/-- The projection of `getAllProfessors` followed by `_id.toString()`. -/
def ProfDoc.listing (p : ProfDoc) : ProfListing :=
  { _id := p._id.toString
    professorName := p.professorName
    department := p.department
    introduction := p.introduction
    overallRating := p.overallRating
    picture := p.picture }

/-- Modelled from the spec: `userData.getUser` of `../data/user`, which is not
among the sources.  It fetches the user document with the given id from the
user collection and fails with `NotFound("user")` when there is none. -/
def getUser (env : Env) (id : String) (s : Db) : Except Thrown UserDoc × Db :=
  let s := s.log (.handle .users)
  match ObjectId env id with
  | .error e => (.error e, s)
  | .ok oid =>
    let s := s.log (.read .users)
    match s.users.find? (UserDoc.hasId oid) with
    | none => (.error .notFoundUser, s)
    | some u => (.ok u, s)

/-! ## The exported functions -/

/-- The function `getAllProfessors` (lines 9-26). -/
def getAllProfessors (s : Db) : List ProfListing × Db :=
  let s := s.log (.handle .professors)
  let s := s.log (.read .professors)
  (s.professors.map ProfDoc.listing, s)

/-- The function `getProfById` (lines 66-74). -/
def getProfById (env : Env) (id : JsVal) (s : Db) : Except Thrown ProfDoc × Db :=
  match env.inputCheck.checkUserId id with
  | .error e => (.error (.msg e), s)
  | .ok id =>
    let s := s.log (.handle .professors)
    match ObjectId env id with
    | .error e => (.error e, s)
    | .ok oid =>
      let s := s.log (.read .professors)
      match s.professors.find? (ProfDoc.hasId oid) with
      | none => (.error (.msg "Professor not found"), s)
      | some professor => (.ok { professor with _id := .str professor._id.toString }, s)

/-- The function `createProfessor` (lines 41-64). -/
def createProfessor (env : Env) (professorName department introduction picture : JsVal)
    (s : Db) : Except Thrown ProfDoc × Db :=
  match env.inputCheck.checkProfessorName professorName with
  | .error e => (.error (.msg e), s)
  | .ok professorName =>
  match env.inputCheck.checkDepartment department with
  | .error e => (.error (.msg e), s)
  | .ok department =>
  match env.inputCheck.checkIntroduction introduction with
  | .error e => (.error (.msg e), s)
  | .ok introduction =>
  match env.inputCheck.checkProfessorPicture picture with
  | .error e => (.error (.msg e), s)
  | .ok picture =>
    let s := s.log (.handle .professors)
    let insertedId := env.freshObjectId s.nextId
    let newProfessor : ProfDoc :=
      { _id := .oid insertedId
        professorName := some professorName
        department := some department
        introduction := some introduction
        picture := some picture
        reviews := []
        courses := []
        overallRating := none
        rating := none }
    let insertedCount := 1
    let s := { s.log (.write .professors) with
      professors := s.professors ++ [newProfessor], nextId := s.nextId + 1 }
    if insertedCount = 0 then (.error (.msg "Insert failed!"), s)
    else getProfById env (.str insertedId) s

/-- The conversion `ToNumber` that the operator `-` applies to an
`overallRating`: `null` becomes 0. -/
def toNumber : Option ℚ → ℚ
  | some q => q
  | none => 0

/-- The method `Array.prototype.sort(compare)`: a stable sort that leaves `a`
before `b` when `compare(a, b)` is not positive. -/
def sort {α : Type} (compare : α → α → ℚ) (l : List α) : List α :=
  l.insertionSort (fun a b => compare a b ≤ 0)

/-- The function `getTop3Professors` (lines 76-80). -/
def getTop3Professors (s : Db) : List ProfListing × Db :=
  let (professorList, s) := getAllProfessors s
  let res := (sort (fun a b => toNumber b.overallRating - toNumber a.overallRating)
    professorList).take 3
  (res, s)

/-- The function `updateProf` (lines 82-100); `updatedProf` is `none` when the
caller passes `undefined` or `null`. -/
def updateProf (env : Env) (id : JsVal) (updatedProf : Option UpdatedProf) (s : Db) :
    Except Thrown ProfDoc × Db :=
  match env.inputCheck.checkUserId id with
  | .error e => (.error (.msg e), s)
  | .ok id =>
    match updatedProf with
    | none => (.error .typeError, s)
    | some profUpdateInfo =>
      let s := s.log (.handle .professors)
      match ObjectId env id with
      | .error e => (.error e, s)
      | .ok oid =>
        let updateInfo := updateOne (ProfDoc.hasId oid)
          (fun p => { p with
            professorName := profUpdateInfo.professorName
            department := profUpdateInfo.department
            introduction := profUpdateInfo.introduction
            picture := profUpdateInfo.picture }) s.professors
        let s := { s.log (.write .professors) with professors := updateInfo.docs }
        if updateInfo.matchedCount = 0 ∧ updateInfo.modifiedCount = 0 then
          (.error (.msg "Update failed"), s)
        else getProfById env (.str id) s

/-- The function `removeProf` (lines 102-113). -/
def removeProf (env : Env) (id : JsVal) (s : Db) : Except Thrown Deleted × Db :=
  match env.inputCheck.checkUserId id with
  | .error e => (.error (.msg e), s)
  | .ok id =>
    let s := s.log (.handle .professors)
    match ObjectId env id with
    | .error e => (.error e, s)
    | .ok oid =>
      let deletedCount := if s.professors.any (ProfDoc.hasId oid) then 1 else 0
      let s := { s.log (.write .professors) with
        professors := s.professors.eraseP (ProfDoc.hasId oid) }
      if deletedCount = 0 then
        (.error (.msg ("Could not delete professor with id of " ++ id)), s)
      else (.ok { deleted := true }, s)

/-- The function `addProfReview` (lines 129-173). -/
def addProfReview (env : Env) (uid pid comment rating : JsVal) (s : Db) :
    Except Thrown Review × Db :=
  match env.inputCheck.checkUserId uid with
  | .error e => (.error (.msg e), s)
  | .ok uid =>
  match env.inputCheck.checkUserId pid with
  | .error e => (.error (.msg e), s)
  | .ok pid =>
  match env.inputCheck.checkComment comment with
  | .error e => (.error (.msg e), s)
  | .ok comment =>
  match env.inputCheck.checkRating rating with
  | .error e => (.error (.msg e), s)
  | .ok rating =>
    let s := s.log (.handle .users)
    let s := s.log (.handle .professors)
    match getUser env uid s with
    | (.error e, s) => (.error e, s)
    | (.ok user, s) =>
      let profReview : Review :=
        { _id := .str (env.freshObjectId s.nextId)
          userId := uid
          professorId := pid
          username := user.username
          comment := comment
          rating := rating }
      let s := { s with nextId := s.nextId + 1 }
      -- insert review into user
      match ObjectId env uid with
      | .error e => (.error e, s)
      | .ok uoid =>
        let userUpdateInfo := updateOne (UserDoc.hasId uoid) (UserDoc.pushReview profReview) s.users
        let s := { s.log (.write .users) with users := userUpdateInfo.docs }
        if userUpdateInfo.modifiedCount = 0 ∧ userUpdateInfo.matchedCount = 0 then
          (.error (.msg ("No user found with ID of " ++ uid)), s)
        else
          -- insert prof review into professor
          match ObjectId env pid with
          | .error e => (.error e, s)
          | .ok poid =>
            let profUpdateInfo :=
              updateOne (ProfDoc.hasId poid) (ProfDoc.pushReview profReview) s.professors
            let s := { s.log (.write .professors) with professors := profUpdateInfo.docs }
            if profUpdateInfo.modifiedCount = 0 ∧ profUpdateInfo.matchedCount = 0 then
              (.error (.msg ("No professor found with ID of " ++ pid)), s)
            else
              -- set average rating
              let s := { s.log (.write .professors) with
                professors := (updateOne (ProfDoc.hasId poid) ProfDoc.setAvgRating s.professors).docs }
              (.ok profReview, s)

/-- The function `removeProfReview` (lines 175-189). -/
def removeProfReview (env : Env) (id : JsVal) (s : Db) : Except Thrown Deleted × Db :=
  match env.inputCheck.checkUserId id with
  | .error e => (.error (.msg e), s)
  | .ok id =>
    let s := s.log (.handle .professors)
    -- find out the professor document this review belongs to
    match ObjectId env id with
    | .error e => (.error e, s)
    | .ok roid =>
      let s := s.log (.read .professors)
      match s.professors.find? (ProfDoc.hasReview roid) with
      | none => (.error (.msg "review does not exist"), s)
      | some prof =>
        -- delete the review from the reviews
        let s := { s.log (.write .professors) with
          professors := (updateOne (ProfDoc.hasId prof._id) (ProfDoc.pullReview roid) s.professors).docs }
        -- re-calculate avg rating
        match ObjectIdOf env prof._id with
        | .error e => (.error e, s)
        | .ok poid =>
          let s := { s.log (.write .professors) with
            professors := (updateOne (ProfDoc.hasId poid) ProfDoc.setAvgRating s.professors).docs }
          (.ok { deleted := true }, s)

/-! ## A sample environment and sample stores -/

/-- Hexadecimal digits. -/
def isHexChar (c : Char) : Bool :=
  c.isDigit || (decide ('a' ≤ c) && decide (c ≤ 'f')) || (decide ('A' ≤ c) && decide (c ≤ 'F'))

/-- A string of 24 hexadecimal digits. -/
def isToken (s : String) : Bool :=
  decide (s.data.length = 24) && s.data.all isHexChar

/-- A non-empty string of at most `bound` characters. -/
def boundedText (bound : Nat) (what : String) : JsVal → Except String String
  | .str s => if s.data.length = 0 ∨ bound < s.data.length then .error (what ++ " is invalid") else .ok s
  | _ => .error (what ++ " is invalid")

/-- Modelled from the spec: the `./inputCheck` module, which is not among the
sources.  An identifier is a fixed-length hexadecimal token (24 digits), a
comment is non-empty within a length bound and a rating is an integer within a
fixed range; the spec leaves the bounds open, and this instance takes 1000
characters and the range 1 to 5.  The theorems below hold for every
`InputCheck`; this one serves as a concrete instance. -/
def sampleInputCheck : InputCheck where
  checkUserId
    | .str s => if isToken s then .ok s else .error "id is not a valid ObjectId"
    | _ => .error "id must be a string"
  checkComment := boundedText 1000 "comment"
  checkRating
    | .num q => if q.den = 1 ∧ 1 ≤ q.num ∧ q.num ≤ 5 then .ok q.num else .error "rating is invalid"
    | _ => .error "rating is invalid"
  checkProfessorName := boundedText 1000 "professorName"
  checkDepartment := boundedText 1000 "department"
  checkIntroduction := boundedText 1000 "introduction"
  checkProfessorPicture := boundedText 1000 "picture"

/-- A concrete environment: `ObjectId(s)` accepts a 24-digit hexadecimal
string and the generated ids count upwards. -/
def sampleEnv : Env where
  inputCheck := sampleInputCheck
  parseObjectId s := if isToken s then some (String.mk (s.data.map Char.toLower)) else none
  freshObjectId n :=
    String.mk (List.replicate (24 - (Nat.toDigits 16 n).length) '0' ++ Nat.toDigits 16 n)

/-- A user document with no reviews. -/
def sampleUser : UserDoc :=
  { _id := .oid "62215a7ebd69a460a6193418", username := "phill", reviews := [] }

/-- A professor document as `createProfessor` inserts it. -/
def sampleProf : ProfDoc :=
  { _id := .oid "624724af974aef308ff7cc6a"
    professorName := some "Patrick, Hill"
    department := some "Computer Science"
    introduction := some "Professor in the Computer Science department"
    picture := some "prof.jpg"
    reviews := []
    courses := []
    overallRating := none
    rating := none }

/-- A store with one user and one professor, neither having a review. -/
def sampleDb : Db :=
  { users := [sampleUser], professors := [sampleProf], nextId := 0, trace := [] }

/-- The review Scenario A of the specification creates: the first review, rated 5. -/
def reviewA : Review :=
  { _id := .str "000000000000000000000000", userId := "62215a7ebd69a460a6193418",
    professorId := "624724af974aef308ff7cc6a", username := "phill", comment := "Great",
    rating := 5 }

/-- The store after Scenario A: `reviewA` nested in the user and in the
professor, whose `rating` is 5. -/
def afterA : Db :=
  { users := [{ sampleUser with reviews := [reviewA] }]
    professors := [{ sampleProf with reviews := [reviewA], rating := some 5 }]
    nextId := 1
    trace := [.handle .users, .handle .professors, .handle .users, .read .users,
      .write .users, .write .professors, .write .professors] }

/-- The professor of Scenario B. -/
def profB : ProfDoc :=
  { sampleProf with
    reviews :=
      [{ _id := .str "62215a7ebd69a460a6193411", userId := "62215a7ebd69a460a6193418",
         professorId := "624724af974aef308ff7cc6a", username := "phill", comment := "Good",
         rating := 4 },
       { _id := .str "62215a7ebd69a460a6193412", userId := "62215a7ebd69a460a6193418",
         professorId := "624724af974aef308ff7cc6a", username := "phill", comment := "Great",
         rating := 5 }]
    rating := some (9 / 2) }

/-- Scenario B of the specification: a professor whose two reviews are rated 4 and 5. -/
def scenarioB : Db :=
  { users := [sampleUser], professors := [profB], nextId := 2, trace := [] }

/-- A professor whose two reviews are both rated 5. -/
def profFives : ProfDoc :=
  { sampleProf with
    reviews :=
      [{ _id := .str "62215a7ebd69a460a6193411", userId := "62215a7ebd69a460a6193418",
         professorId := "624724af974aef308ff7cc6a", username := "phill", comment := "Great",
         rating := 5 },
       { _id := .str "62215a7ebd69a460a6193412", userId := "62215a7ebd69a460a6193418",
         professorId := "624724af974aef308ff7cc6a", username := "phill", comment := "Great",
         rating := 5 }]
    rating := some 5 }

/-- A store whose professor has two reviews rated 5. -/
def scenarioFives : Db :=
  { users := [sampleUser], professors := [profFives], nextId := 2, trace := [] }

/-- A store with one user and no professor. -/
def noProfDb : Db :=
  { users := [sampleUser], professors := [], nextId := 0, trace := [] }

/-- The store after `createProfessor` on `noProfDb`. -/
def afterCreate : Db :=
  (createProfessor sampleEnv (.str "Patrick, Hill") (.str "Computer Science")
    (.str "Professor in the Computer Science department") (.str "prof.jpg") noProfDb).2

/-- The store after a review rated 5 is added to the professor of `afterCreate`. -/
def afterCreateAdd : Db :=
  (addProfReview sampleEnv (.str "62215a7ebd69a460a6193418") (.str "000000000000000000000000")
    (.str "Great") (.num 5) afterCreate).2

/-- Scenario C of the specification, reached through `addProfReview`: the
professor of `sampleDb` after one review rated 3. -/
def scenarioC : Db :=
  (addProfReview sampleEnv (.str "62215a7ebd69a460a6193418") (.str "624724af974aef308ff7cc6a")
    (.str "Fair") (.num 3) sampleDb).2

/-- Scenario C with the review stored as the schema comment of the module
documents it, its `_id` being an `ObjectId`. -/
def scenarioCObjectId : Db :=
  { users := [sampleUser]
    professors := [{ sampleProf with
      reviews :=
        [{ _id := .oid "624724af974aef308ff7cc6b", userId := "62215a7ebd69a460a6193418",
           professorId := "624724af974aef308ff7cc6a", username := "phill", comment := "Fair",
           rating := 3 }]
      rating := some 3 }]
    nextId := 0
    trace := [] }

/-! # Theorems -/

/-! ## Lemmas on the collection operations -/

theorem modifyFirst_append {α : Type} (q : α → Bool) (f : α → α) (pre : List α) (d : α)
    (post : List α) (hpre : ∀ x ∈ pre, q x = false) (hd : q d = true) :
    modifyFirst q f (pre ++ d :: post) = pre ++ f d :: post := by
  induction pre with
  | nil => simp [modifyFirst, hd]
  | cons a as ih =>
    have ha : q a = false := hpre a (by simp)
    have ih2 := ih (fun x hx => hpre x (by simp [hx]))
    simp [modifyFirst, ha, ih2]

theorem find_split {α : Type} (q : α → Bool) (l : List α) (d : α)
    (h : l.find? q = some d) :
    ∃ pre post, l = pre ++ d :: post ∧ (∀ x ∈ pre, q x = false) ∧ q d = true := by
  obtain ⟨hd, pre, post, hl, hpre⟩ := List.find?_eq_some.mp h
  exact ⟨pre, post, hl, fun x hx => by simpa using hpre x hx, hd⟩

theorem find_of_split {α : Type} (q : α → Bool) (pre : List α) (d : α) (post : List α)
    (hpre : ∀ x ∈ pre, q x = false) (hd : q d = true) :
    (pre ++ d :: post).find? q = some d := by
  apply List.find?_eq_some.mpr
  exact ⟨hd, pre, post, rfl, fun x hx => by simp [hpre x hx]⟩

theorem updateOne_split {α : Type} [DecidableEq α] (q : α → Bool) (f : α → α)
    (pre : List α) (d : α) (post : List α)
    (hpre : ∀ x ∈ pre, q x = false) (hd : q d = true) :
    (updateOne q f (pre ++ d :: post)).docs = pre ++ f d :: post ∧
      (updateOne q f (pre ++ d :: post)).matchedCount = 1 := by
  simp [updateOne, find_of_split q pre d post hpre hd, modifyFirst_append q f pre d post hpre hd]

theorem updateOne_none {α : Type} [DecidableEq α] (q : α → Bool) (f : α → α) (l : List α)
    (h : l.find? q = none) :
    (updateOne q f l).docs = l ∧ (updateOne q f l).matchedCount = 0 ∧
      (updateOne q f l).modifiedCount = 0 := by
  simp [updateOne, h]

theorem updateOne_matched {α : Type} [DecidableEq α] (q : α → Bool) (f : α → α) (l : List α)
    (h : ¬ ((updateOne q f l).modifiedCount = 0 ∧ (updateOne q f l).matchedCount = 0)) :
    ∃ d, l.find? q = some d := by
  cases hf : l.find? q with
  | none => exact absurd (by simp [updateOne, hf]) h
  | some d => exact ⟨d, rfl⟩

theorem userHasId_iff (id : BsonId) (u : UserDoc) : UserDoc.hasId id u = true ↔ u._id = id := by
  simp [UserDoc.hasId]

theorem profHasId_iff (id : BsonId) (p : ProfDoc) : ProfDoc.hasId id p = true ↔ p._id = id := by
  simp [ProfDoc.hasId]

theorem userHasId_false_iff (id : BsonId) (u : UserDoc) :
    UserDoc.hasId id u = false ↔ u._id ≠ id := by
  simp [UserDoc.hasId]

theorem profHasId_false_iff (id : BsonId) (p : ProfDoc) :
    ProfDoc.hasId id p = false ↔ p._id ≠ id := by
  simp [ProfDoc.hasId]

theorem ObjectId_ok (env : Env) (x : String) (b : BsonId) (h : ObjectId env x = .ok b) :
    ∃ hex, env.parseObjectId x = some hex ∧ b = .oid hex := by
  unfold ObjectId at h
  split at h
  · rename_i hex hp
    exact ⟨hex, hp, by simpa using h.symm⟩
  · simp at h

theorem getUser_ok_inv (env : Env) (id : String) (s s1 : Db) (u : UserDoc)
    (h : getUser env id s = (.ok u, s1)) :
    ∃ hex, env.parseObjectId id = some hex ∧
      s.users.find? (UserDoc.hasId (.oid hex)) = some u ∧
      s1 = (s.log (.handle .users)).log (.read .users) := by
  unfold getUser at h
  simp only at h
  split at h
  · simp at h
  rename_i oid hoid
  obtain ⟨hex, hp, rfl⟩ := ObjectId_ok env id oid hoid
  split at h
  · simp at h
  rename_i u' hfind
  simp only [Prod.mk.injEq, Except.ok.injEq] at h
  obtain ⟨rfl, rfl⟩ := h
  exact ⟨hex, hp, by simpa [Db.log] using hfind, rfl⟩

/-! ## What a successful `addProfReview` did -/

theorem addProfReview_ok_inv (env : Env) (uid pid comment rating : JsVal) (s s' : Db) (r : Review)
    (h : addProfReview env uid pid comment rating s = (.ok r, s')) :
    ∃ uid' pid' comment' rating' uh ph upre u upost ppre p ppost,
      env.inputCheck.checkUserId uid = .ok uid' ∧
      env.inputCheck.checkUserId pid = .ok pid' ∧
      env.inputCheck.checkComment comment = .ok comment' ∧
      env.inputCheck.checkRating rating = .ok rating' ∧
      env.parseObjectId uid' = some uh ∧
      env.parseObjectId pid' = some ph ∧
      s.users = upre ++ u :: upost ∧ (∀ x ∈ upre, x._id ≠ .oid uh) ∧ u._id = .oid uh ∧
      s.professors = ppre ++ p :: ppost ∧ (∀ x ∈ ppre, x._id ≠ .oid ph) ∧ p._id = .oid ph ∧
      r = { _id := .str (env.freshObjectId s.nextId), userId := uid', professorId := pid',
            username := u.username, comment := comment', rating := rating' } ∧
      s'.users = upre ++ u.pushReview r :: upost ∧
      s'.professors = ppre ++ (p.pushReview r).setAvgRating :: ppost := by
  unfold addProfReview at h
  split at h
  · simp at h
  rename_i uid' huid
  split at h
  · simp at h
  rename_i pid' hpid
  split at h
  · simp at h
  rename_i comment' hcomment
  split at h
  · simp at h
  rename_i rating' hrating
  simp only at h
  split at h
  · simp at h
  rename_i user s1 hget
  split at h
  · simp at h
  rename_i uoid huoid
  split at h
  · simp at h
  rename_i hum
  split at h
  · simp at h
  rename_i poid hpoid
  split at h
  · simp at h
  rename_i hpm
  obtain ⟨uh, huh, hfindu, rfl⟩ := getUser_ok_inv env uid' _ s1 user hget
  obtain ⟨uh', huh', rfl⟩ := ObjectId_ok env uid' uoid huoid
  obtain ⟨ph, hph, rfl⟩ := ObjectId_ok env pid' poid hpoid
  obtain rfl : uh = uh' := by rw [huh] at huh'; exact Option.some.inj huh'
  simp only [Db.log] at h hpm hum hfindu
  obtain ⟨upre, upost, husers, hupre, hu⟩ := find_split _ _ _ hfindu
  obtain ⟨p, hfindp⟩ := updateOne_matched _ _ _ hpm
  obtain ⟨ppre, ppost, hprofs, hppre, hp⟩ := find_split _ _ _ hfindp
  simp only [Prod.mk.injEq, Except.ok.injEq] at h
  obtain ⟨rfl, rfl⟩ := h
  refine ⟨uid', pid', comment', rating', uh, ph, upre, user, upost, ppre, p, ppost,
    huid, hpid, hcomment, hrating, huh, hph, husers, ?_, ?_, hprofs, ?_, ?_, rfl, ?_, ?_⟩
  · exact fun x hx => (userHasId_false_iff _ x).mp (hupre x hx)
  · exact (userHasId_iff _ user).mp hu
  · exact fun x hx => (profHasId_false_iff _ x).mp (hppre x hx)
  · exact (profHasId_iff _ p).mp hp
  · simp only [husers]
    exact (updateOne_split _ _ upre user upost hupre hu).1
  · simp only [hprofs]
    rw [(updateOne_split _ (ProfDoc.pushReview _) ppre p ppost hppre hp).1]
    exact (updateOne_split _ _ ppre _ ppost hppre (by simpa [ProfDoc.hasId, ProfDoc.pushReview] using hp)).1

/-! ## Rounding to binary64 -/

theorem roundHalfEven_intCast (n : ℤ) : roundHalfEven (n : ℚ) = n := by
  simp [roundHalfEven]

theorem roundHalfEven_err (x : ℚ) : |(roundHalfEven x : ℚ) - x| ≤ 1 / 2 := by
  have h1 := Int.floor_le x
  have h2 := Int.lt_floor_add_one x
  unfold roundHalfEven
  rw [abs_le]
  split_ifs with ha hb hc
  · constructor <;> linarith
  · push_cast; constructor <;> linarith
  · constructor <;> linarith
  · push_cast; constructor <;> linarith

theorem natCast_log2_bounds (n : ℕ) (hn : n ≠ 0) :
    (2 : ℚ) ^ (Nat.log2 n) ≤ n ∧ (n : ℚ) < 2 ^ (Nat.log2 n + 1) := by
  constructor
  · exact_mod_cast Nat.log2_self_le hn
  · exact_mod_cast (Nat.lt_log2_self : n < 2 ^ (n.log2 + 1))

theorem abs_eq_natAbs_div_den (x : ℚ) : |x| = (x.num.natAbs : ℚ) / (x.den : ℚ) := by
  have h : x = (x.num : ℚ) / (x.den : ℚ) := (Rat.num_div_den x).symm
  have hd : (0 : ℚ) < x.den := by exact_mod_cast x.den_pos
  conv_lhs => rw [h]
  rw [abs_div, abs_of_pos hd, Nat.cast_natAbs, Int.cast_abs]

theorem ilog2_bounds (x : ℚ) (hx : x ≠ 0) :
    (2 : ℚ) ^ ilog2 x ≤ |x| ∧ |x| < 2 ^ (ilog2 x + 1) := by
  have hn : x.num.natAbs ≠ 0 := by simpa using hx
  have hd : x.den ≠ 0 := x.den_nz
  obtain ⟨n1, n2⟩ := natCast_log2_bounds x.num.natAbs hn
  obtain ⟨d1, d2⟩ := natCast_log2_bounds x.den hd
  have hdpos : (0 : ℚ) < x.den := by exact_mod_cast x.den_pos
  have hnpos : (0 : ℚ) < x.num.natAbs := by exact_mod_cast Nat.pos_of_ne_zero hn
  have habs := abs_eq_natAbs_div_den x
  have two : (2 : ℚ) ≠ 0 := by norm_num
  have e0 : (2 : ℚ) ^ ((Nat.log2 x.num.natAbs : ℤ) - (Nat.log2 x.den : ℤ)) =
      2 ^ (Nat.log2 x.num.natAbs) / 2 ^ (Nat.log2 x.den) := by
    rw [zpow_sub₀ two, zpow_natCast, zpow_natCast]
  have pa : (0 : ℚ) < 2 ^ (Nat.log2 x.num.natAbs) := by positivity
  have pb : (0 : ℚ) < 2 ^ (Nat.log2 x.den) := by positivity
  unfold ilog2
  split_ifs with h
  · refine ⟨h, ?_⟩
    rw [zpow_add_one₀ two, e0, habs, div_mul_eq_mul_div, div_lt_div_iff₀ hdpos pb]
    rw [pow_succ] at n2
    nlinarith
  · constructor
    · rw [zpow_sub_one₀ two, e0, habs, div_mul_eq_mul_div, div_le_div_iff₀ (by positivity) hdpos]
      rw [pow_succ] at d2
      field_simp
      nlinarith
    · rw [sub_add_cancel]
      exact lt_of_not_le h

theorem ilog2_lt_of_abs_lt (x : ℚ) (hx : x ≠ 0) (k : ℤ) (h : |x| < 2 ^ k) : ilog2 x < k := by
  have h1 := (ilog2_bounds x hx).1
  have : (2 : ℚ) ^ ilog2 x < 2 ^ k := lt_of_le_of_lt h1 h
  exact (zpow_lt_zpow_iff_right₀ (by norm_num : (1 : ℚ) < 2)).mp this

theorem roundDouble_of_isDouble (x : ℚ) (h : IsDouble x) : roundDouble x = x := by
  by_cases hx : x = 0
  · simp [roundDouble, hx]
  obtain ⟨m, e, hm, he, _, rfl⟩ := h
  have two : (2 : ℚ) ≠ 0 := by norm_num
  have hlt : |(m : ℚ) * 2 ^ e| < 2 ^ (53 + e) := by
    rw [abs_mul, abs_of_pos (by positivity : (0 : ℚ) < 2 ^ e), zpow_add₀ two]
    have : |(m : ℚ)| < 2 ^ (53 : ℤ) := by
      have h53 : ((2 : ℤ) ^ 53 : ℤ) = ((2 ^ 53 : ℕ) : ℤ) := by norm_num
      have := (Int.cast_lt (R := ℚ)).mpr hm
      rw [Int.cast_abs] at this
      calc |(m : ℚ)| < ((2 ^ 53 : ℤ) : ℚ) := this
        _ = 2 ^ (53 : ℤ) := by norm_num
    exact mul_lt_mul_of_pos_right this (by positivity)
  have hlog := ilog2_lt_of_abs_lt _ hx _ hlt
  have hE : max (ilog2 ((m : ℚ) * 2 ^ e) - 52) (-1074) ≤ e := max_le (by omega) he
  obtain ⟨k, hk⟩ := Int.eq_ofNat_of_zero_le (sub_nonneg.mpr hE)
  have hdiv : (m : ℚ) * 2 ^ e / 2 ^ max (ilog2 ((m : ℚ) * 2 ^ e) - 52) (-1074) =
      ((m * 2 ^ k : ℤ) : ℚ) := by
    rw [mul_div_assoc, ← zpow_sub₀ two, hk]
    push_cast
    rw [zpow_natCast]
  unfold roundDouble
  rw [if_neg hx, hdiv, roundHalfEven_intCast]
  push_cast
  rw [mul_assoc, ← zpow_natCast, ← hk, ← zpow_add₀ two, sub_add_cancel]

theorem roundDouble_err (x : ℚ) (hx : (2 : ℚ) ^ (-1022 : ℤ) ≤ |x|) :
    |roundDouble x - x| ≤ |x| / 2 ^ 53 := by
  have two : (2 : ℚ) ≠ 0 := by norm_num
  have hx0 : x ≠ 0 := by
    rintro rfl
    rw [abs_zero] at hx
    exact absurd hx (not_le.mpr (by positivity))
  obtain ⟨lo, hi⟩ := ilog2_bounds x hx0
  have hlog : -1022 ≤ ilog2 x := by
    by_contra hcon
    have h1 : ilog2 x + 1 ≤ -1022 := by omega
    have h2 : (2 : ℚ) ^ (ilog2 x + 1) ≤ 2 ^ (-1022 : ℤ) :=
      zpow_le_zpow_right₀ (by norm_num) h1
    exact absurd (lt_of_lt_of_le hi h2) (not_lt.mpr hx)
  have hE : max (ilog2 x - 52) (-1074) = ilog2 x - 52 := max_eq_left (by omega)
  have hpos : (0 : ℚ) < 2 ^ (ilog2 x - 52) := by positivity
  unfold roundDouble
  rw [if_neg hx0, hE]
  have hround := roundHalfEven_err (x / 2 ^ (ilog2 x - 52))
  have key : (roundHalfEven (x / 2 ^ (ilog2 x - 52)) : ℚ) * 2 ^ (ilog2 x - 52) - x =
      ((roundHalfEven (x / 2 ^ (ilog2 x - 52)) : ℚ) - x / 2 ^ (ilog2 x - 52)) *
        2 ^ (ilog2 x - 52) := by
    field_simp
  rw [key, abs_mul, abs_of_pos hpos]
  have h3 : (2 : ℚ) ^ (ilog2 x - 52) = 2 ^ ilog2 x / 2 ^ 53 * 2 := by
    rw [zpow_sub₀ two]
    norm_num
    ring
  calc |(roundHalfEven (x / 2 ^ (ilog2 x - 52)) : ℚ) - x / 2 ^ (ilog2 x - 52)| *
        2 ^ (ilog2 x - 52)
      ≤ 1 / 2 * 2 ^ (ilog2 x - 52) := mul_le_mul_of_nonneg_right hround hpos.le
    _ = 2 ^ ilog2 x / 2 ^ 53 := by rw [h3]; ring
    _ ≤ |x| / 2 ^ 53 := div_le_div_of_nonneg_right lo (by positivity)

theorem toDouble_of_lt (n : ℤ) (h : |n| < 2 ^ 53) : toDouble n = n := by
  apply roundDouble_of_isDouble
  exact ⟨n, 0, h, by norm_num, by norm_num, by simp⟩

theorem fdiv_exact (a b : ℚ) (h : IsDouble (a / b)) : fdiv a b = a / b :=
  roundDouble_of_isDouble _ h

theorem fdiv_int_err (n : ℤ) (k : ℕ) (hk : 0 < k) (hk53 : k < 2 ^ 53) :
    |fdiv n k - (n : ℚ) / k| ≤ |(n : ℚ) / k| / 2 ^ 53 := by
  by_cases hn : n = 0
  · subst hn
    simp [fdiv, roundDouble]
  apply roundDouble_err
  have hkq : (0 : ℚ) < k := by exact_mod_cast hk
  have h1 : (1 : ℚ) ≤ |(n : ℚ)| := by
    have : (1 : ℤ) ≤ |n| := Int.one_le_abs hn
    exact_mod_cast this
  have h2 : (k : ℚ) < 2 ^ 53 := by exact_mod_cast hk53
  rw [abs_div, abs_of_pos hkq]
  have h3 : (2 : ℚ) ^ (-1022 : ℤ) ≤ 1 / 2 ^ 53 := by
    rw [zpow_neg, ← one_div]
    apply one_div_le_one_div_of_le (by positivity)
    calc (2 : ℚ) ^ 53 = 2 ^ (53 : ℤ) := by norm_num
      _ ≤ 2 ^ (1022 : ℤ) := zpow_le_zpow_right₀ (by norm_num) (by norm_num)
  have h4 : (1 : ℚ) / 2 ^ 53 ≤ |(n : ℚ)| / k := by
    rw [div_le_div_iff₀ (by positivity) hkq]
    nlinarith
  exact le_trans h3 h4

theorem avg_append_singleton (xs : List Int) (x : Int) :
    avg (xs ++ [x]) =
      some (fdiv (toDouble (xs.sum + x)) (toDouble ((xs.length + 1 : Nat) : ℤ))) := by
  cases xs with
  | nil => simp [avg]
  | cons y ys => simp [avg, add_assoc]

/-! ## The claims on `addProfReview` -/

/-- C1, as amended: when `addProfReview` succeeds on a professor `p` (the
document the validated professor id addresses), the `rating` field of that
professor afterwards is the double-precision quotient of the sum of the
ratings of the former reviews of `p` and the new validated rating by their
number `n + 1`.  For a sum and a number below `2 ^ 53` in magnitude that value
is within `2 ^ (-53)` of the exact mean, relative to it, and is the exact mean
whenever the exact mean is a binary64 number. -/
theorem addProfReview_rating_is_double_mean (env : Env) (uid pid comment rating : JsVal)
    (s s' : Db) (r : Review) (pid' : String) (rating' : Int) (poid : BsonId) (p : ProfDoc)
    (h : addProfReview env uid pid comment rating s = (.ok r, s'))
    (hpid : env.inputCheck.checkUserId pid = .ok pid')
    (hrating : env.inputCheck.checkRating rating = .ok rating')
    (hpoid : ObjectId env pid' = .ok poid)
    (hp : s.professors.find? (ProfDoc.hasId poid) = some p) :
    ∃ p' v, s'.professors.find? (ProfDoc.hasId poid) = some p' ∧
      p'.reviews.map (fun x => x.rating) = p.reviews.map (fun x => x.rating) ++ [rating'] ∧
      p'.rating = some v ∧
      v = fdiv (toDouble ((p.reviews.map (fun x => x.rating)).sum + rating'))
        (toDouble ((p.reviews.length + 1 : Nat) : ℤ)) ∧
      (|(p.reviews.map (fun x => x.rating)).sum + rating'| < 2 ^ 53 →
        p.reviews.length + 1 < 2 ^ 53 →
        |v - (((p.reviews.map (fun x => x.rating)).sum + rating' : Int) : ℚ) /
            ((p.reviews.length + 1 : Nat) : ℚ)| ≤
          |(((p.reviews.map (fun x => x.rating)).sum + rating' : Int) : ℚ) /
            ((p.reviews.length + 1 : Nat) : ℚ)| / 2 ^ 53 ∧
        (IsDouble ((((p.reviews.map (fun x => x.rating)).sum + rating' : Int) : ℚ) /
            ((p.reviews.length + 1 : Nat) : ℚ)) →
          v = (((p.reviews.map (fun x => x.rating)).sum + rating' : Int) : ℚ) /
            ((p.reviews.length + 1 : Nat) : ℚ))) := by
  obtain ⟨uid2, pid2, comment2, rating2, uh, ph, upre, u, upost, ppre, p2, ppost,
    _, hpid2, _, hrating2, _, hph, _, _, _, hprofs, hppre, hp2, hr, _, hprofs'⟩ :=
    addProfReview_ok_inv env uid pid comment rating s s' r h
  obtain rfl : pid2 = pid' := by rw [hpid] at hpid2; exact (Except.ok.inj hpid2).symm
  obtain rfl : rating2 = rating' := by rw [hrating] at hrating2; exact (Except.ok.inj hrating2).symm
  obtain ⟨ph2, hph2, rfl⟩ := ObjectId_ok env pid2 poid hpoid
  obtain rfl : ph = ph2 := by rw [hph] at hph2; exact Option.some.inj hph2
  have hpre : ∀ x ∈ ppre, ProfDoc.hasId (.oid ph) x = false :=
    fun x hx => (profHasId_false_iff _ x).mpr (hppre x hx)
  have hq : ProfDoc.hasId (.oid ph) p2 = true := (profHasId_iff _ p2).mpr hp2
  obtain rfl : p2 = p := by
    rw [hprofs, find_of_split _ ppre p2 ppost hpre hq] at hp
    exact Option.some.inj hp
  refine ⟨(p2.pushReview r).setAvgRating, _, ?_, ?_, ?_, rfl, ?_⟩
  · rw [hprofs']
    exact find_of_split _ ppre _ ppost hpre
      (by simpa [ProfDoc.hasId, ProfDoc.pushReview, ProfDoc.setAvgRating] using hq)
  · simp [ProfDoc.setAvgRating, ProfDoc.pushReview, hr]
  · simp only [ProfDoc.setAvgRating, ProfDoc.pushReview, List.map_append, List.map_cons,
      List.map_nil]
    rw [avg_append_singleton]
    simp [hr]
  · intro hsum hlen
    have hlen' : |((p2.reviews.length + 1 : Nat) : ℤ)| < 2 ^ 53 := by
      rw [abs_of_nonneg (Int.natCast_nonneg _)]
      exact_mod_cast hlen
    rw [toDouble_of_lt _ hsum, toDouble_of_lt _ hlen', Int.cast_natCast]
    exact ⟨fdiv_int_err _ _ (Nat.succ_pos _) hlen, fun hd => fdiv_exact _ _ hd⟩

/-- C1 as amended, at Scenario B: ratings 4 and 5 plus a new rating 3 give the
rating 4, the exact mean, since 4 is a binary64 number. -/
theorem addProfReview_rating_is_double_mean_witness :
    addProfReview sampleEnv (.str "62215a7ebd69a460a6193418") (.str "624724af974aef308ff7cc6a")
        (.str "Fine") (.num 3) scenarioB =
      (.ok { _id := .str "000000000000000000000002", userId := "62215a7ebd69a460a6193418",
             professorId := "624724af974aef308ff7cc6a", username := "phill", comment := "Fine",
             rating := 3 },
       (addProfReview sampleEnv (.str "62215a7ebd69a460a6193418")
         (.str "624724af974aef308ff7cc6a") (.str "Fine") (.num 3) scenarioB).2) ∧
    scenarioB.professors.find? (ProfDoc.hasId (.oid "624724af974aef308ff7cc6a")) = some profB ∧
    ∃ p', (addProfReview sampleEnv (.str "62215a7ebd69a460a6193418")
          (.str "624724af974aef308ff7cc6a") (.str "Fine") (.num 3) scenarioB).2.professors.find?
          (ProfDoc.hasId (.oid "624724af974aef308ff7cc6a")) = some p' ∧
      p'.reviews.map (fun x => x.rating) = [4, 5, 3] ∧
      p'.rating = some 4 := by
  refine ⟨rfl, rfl, ?_⟩
  obtain ⟨p', v, hfind, hmap, hrat, _, hbound⟩ :=
    addProfReview_rating_is_double_mean sampleEnv (.str "62215a7ebd69a460a6193418")
      (.str "624724af974aef308ff7cc6a") (.str "Fine") (.num 3) scenarioB _ _
      "624724af974aef308ff7cc6a" 3 (.oid "624724af974aef308ff7cc6a") profB rfl rfl rfl rfl rfl
  refine ⟨p', hfind, hmap, ?_⟩
  have hmean : (((profB.reviews.map (fun x => x.rating)).sum + 3 : Int) : ℚ) /
      ((profB.reviews.length + 1 : Nat) : ℚ) = 4 := by
    simp [profB]
    norm_num
  have hv := (hbound (by decide) (by decide)).2
  rw [hmean] at hv
  rw [hrat, hv ⟨4, 0, by norm_num, by norm_num, by norm_num, by norm_num⟩]

/-- C1 as stated fails: on a professor whose reviews are rated 5 and 5,
`addProfReview` with rating 4 succeeds and stores the double
`5254199565265579 / 2 ^ 50`, printed `4.666666666666667`, as `rating`; the
exact mean `(5 + 5 + 4) / 3 = 14 / 3` is another number. -/
theorem addProfReview_rating_not_exact_mean :
    (addProfReview sampleEnv (.str "62215a7ebd69a460a6193418") (.str "624724af974aef308ff7cc6a")
        (.str "Good") (.num 4) scenarioFives).1 =
      .ok { _id := .str "000000000000000000000002", userId := "62215a7ebd69a460a6193418",
            professorId := "624724af974aef308ff7cc6a", username := "phill", comment := "Good",
            rating := 4 } ∧
    (addProfReview sampleEnv (.str "62215a7ebd69a460a6193418") (.str "624724af974aef308ff7cc6a")
        (.str "Good") (.num 4) scenarioFives).2.professors.map
        (fun p => (p.reviews.map (fun x => x.rating), p.rating)) =
      [([5, 5, 4], some (5254199565265579 / 2 ^ 50))] ∧
    (5254199565265579 / 2 ^ 50 : ℚ) ≠ (((5 + 5 + 4 : Int) : ℚ)) / ((2 + 1 : Nat) : ℚ) := by
  refine ⟨?_, ?_, ?_⟩
  · decide!
  · decide!
  · norm_num

/-- C4: a successful `addProfReview` returns a review carrying the validated
user id, professor id, comment and rating and the username of the fetched
user; that one record (same `_id`) is appended last to the reviews of the user
and of the professor, and every other user and professor document is left as
it was. -/
theorem addProfReview_appends_to_both (env : Env) (uid pid comment rating : JsVal) (s s' : Db)
    (r : Review) (uid' pid' comment' : String) (rating' : Int) (uoid poid : BsonId)
    (u : UserDoc) (p : ProfDoc)
    (h : addProfReview env uid pid comment rating s = (.ok r, s'))
    (huid : env.inputCheck.checkUserId uid = .ok uid')
    (hpid : env.inputCheck.checkUserId pid = .ok pid')
    (hcomment : env.inputCheck.checkComment comment = .ok comment')
    (hrating : env.inputCheck.checkRating rating = .ok rating')
    (huoid : ObjectId env uid' = .ok uoid)
    (hpoid : ObjectId env pid' = .ok poid)
    (hu : s.users.find? (UserDoc.hasId uoid) = some u)
    (hp : s.professors.find? (ProfDoc.hasId poid) = some p) :
    r.userId = uid' ∧ r.professorId = pid' ∧ r.username = u.username ∧
      r.comment = comment' ∧ r.rating = rating' ∧
      ∃ upre upost ppre ppost,
        s.users = upre ++ u :: upost ∧ (∀ x ∈ upre, x._id ≠ uoid) ∧
        s'.users = upre ++ { u with reviews := u.reviews ++ [r] } :: upost ∧
        s.professors = ppre ++ p :: ppost ∧ (∀ x ∈ ppre, x._id ≠ poid) ∧
        ∃ agg, s'.professors =
          ppre ++ { p with reviews := p.reviews ++ [r], rating := agg } :: ppost := by
  obtain ⟨uid2, pid2, comment2, rating2, uh, ph, upre, u2, upost, ppre, p2, ppost,
    huid2, hpid2, hcomment2, hrating2, huh, hph, husers, hupre, hu2, hprofs, hppre, hp2, hr,
    husers', hprofs'⟩ := addProfReview_ok_inv env uid pid comment rating s s' r h
  obtain rfl : uid2 = uid' := by rw [huid] at huid2; exact (Except.ok.inj huid2).symm
  obtain rfl : pid2 = pid' := by rw [hpid] at hpid2; exact (Except.ok.inj hpid2).symm
  obtain rfl : comment2 = comment' := by
    rw [hcomment] at hcomment2; exact (Except.ok.inj hcomment2).symm
  obtain rfl : rating2 = rating' := by rw [hrating] at hrating2; exact (Except.ok.inj hrating2).symm
  obtain ⟨uh2, huh2, rfl⟩ := ObjectId_ok env uid2 uoid huoid
  obtain rfl : uh = uh2 := by rw [huh] at huh2; exact Option.some.inj huh2
  obtain ⟨ph2, hph2, rfl⟩ := ObjectId_ok env pid2 poid hpoid
  obtain rfl : ph = ph2 := by rw [hph] at hph2; exact Option.some.inj hph2
  obtain rfl : u2 = u := by
    rw [husers, find_of_split _ upre u2 upost
      (fun x hx => (userHasId_false_iff _ x).mpr (hupre x hx))
      ((userHasId_iff _ u2).mpr hu2)] at hu
    exact Option.some.inj hu
  obtain rfl : p2 = p := by
    rw [hprofs, find_of_split _ ppre p2 ppost
      (fun x hx => (profHasId_false_iff _ x).mpr (hppre x hx))
      ((profHasId_iff _ p2).mpr hp2)] at hp
    exact Option.some.inj hp
  refine ⟨by rw [hr], by rw [hr], by rw [hr], by rw [hr], by rw [hr],
    upre, upost, ppre, ppost, husers, hupre, husers', hprofs, hppre,
    avg ((p2.reviews ++ [r]).map (fun x => x.rating)), by rw [hprofs']; rfl⟩

/-- C4 at Scenario A: the first review of a professor. -/
theorem addProfReview_appends_to_both_witness :
    addProfReview sampleEnv (.str "62215a7ebd69a460a6193418") (.str "624724af974aef308ff7cc6a")
        (.str "Great") (.num 5) sampleDb = (.ok reviewA, afterA) ∧
    (reviewA.userId = "62215a7ebd69a460a6193418" ∧
      reviewA.professorId = "624724af974aef308ff7cc6a" ∧
      reviewA.username = sampleUser.username ∧
      reviewA.comment = "Great" ∧ reviewA.rating = 5 ∧
      ∃ upre upost ppre ppost,
        sampleDb.users = upre ++ sampleUser :: upost ∧
        (∀ x ∈ upre, x._id ≠ .oid "62215a7ebd69a460a6193418") ∧
        afterA.users = upre ++ { sampleUser with reviews := sampleUser.reviews ++ [reviewA] } :: upost ∧
        sampleDb.professors = ppre ++ sampleProf :: ppost ∧
        (∀ x ∈ ppre, x._id ≠ .oid "624724af974aef308ff7cc6a") ∧
        ∃ agg, afterA.professors =
          ppre ++ { sampleProf with reviews := sampleProf.reviews ++ [reviewA], rating := agg } ::
            ppost) :=
  ⟨by decide!,
   addProfReview_appends_to_both sampleEnv (.str "62215a7ebd69a460a6193418")
    (.str "624724af974aef308ff7cc6a") (.str "Great") (.num 5) sampleDb afterA reviewA
    "62215a7ebd69a460a6193418" "624724af974aef308ff7cc6a" "Great" 5
    (.oid "62215a7ebd69a460a6193418") (.oid "624724af974aef308ff7cc6a") sampleUser sampleProf
    (by decide!) rfl rfl rfl rfl rfl rfl rfl rfl⟩

theorem ObjectId_of_parse (env : Env) (x hex : String) (h : env.parseObjectId x = some hex) :
    ObjectId env x = .ok (.oid hex) := by
  simp [ObjectId, h]

theorem getUser_found (env : Env) (id hex : String) (s : Db) (u : UserDoc)
    (hparse : env.parseObjectId id = some hex)
    (hu : s.users.find? (UserDoc.hasId (.oid hex)) = some u) :
    getUser env id s = (.ok u, (s.log (.handle .users)).log (.read .users)) := by
  simp [getUser, ObjectId_of_parse env id hex hparse, Db.log, hu]

theorem getUser_absent (env : Env) (id hex : String) (s : Db)
    (hparse : env.parseObjectId id = some hex)
    (hu : s.users.find? (UserDoc.hasId (.oid hex)) = none) :
    getUser env id s = (.error .notFoundUser, (s.log (.handle .users)).log (.read .users)) := by
  simp [getUser, ObjectId_of_parse env id hex hparse, Db.log, hu]

theorem find_hasId_none_users (id : BsonId) (l : List UserDoc) (h : ∀ u ∈ l, u._id ≠ id) :
    l.find? (UserDoc.hasId id) = none := by
  simpa [UserDoc.hasId] using h

theorem find_hasId_none_profs (id : BsonId) (l : List ProfDoc) (h : ∀ p ∈ l, p._id ≠ id) :
    l.find? (ProfDoc.hasId id) = none := by
  simpa [ProfDoc.hasId] using h

/-- C7: with arguments that pass validation and a user id the driver accepts
but that no user document carries, `addProfReview` fails with the
user-not-found error of `getUser`; the state it leaves differs from the one
it started in only by the trace, which gains two collection handles and one
read of the users: no document of either collection is written. -/
theorem addProfReview_unknown_user (env : Env) (uid pid comment rating : JsVal) (s : Db)
    (uid' pid' comment' : String) (rating' : Int) (uh : String)
    (huid : env.inputCheck.checkUserId uid = .ok uid')
    (hpid : env.inputCheck.checkUserId pid = .ok pid')
    (hcomment : env.inputCheck.checkComment comment = .ok comment')
    (hrating : env.inputCheck.checkRating rating = .ok rating')
    (huh : env.parseObjectId uid' = some uh)
    (hnone : ∀ u ∈ s.users, u._id ≠ .oid uh) :
    addProfReview env uid pid comment rating s =
      (.error .notFoundUser,
       { users := s.users
         professors := s.professors
         nextId := s.nextId
         trace := s.trace ++
           [.handle .users, .handle .professors, .handle .users, .read .users] }) := by
  have hfind := find_hasId_none_users (.oid uh) s.users hnone
  have hget := getUser_absent env uid' uh
    ((s.log (.handle .users)).log (.handle .professors)) huh (by simpa [Db.log] using hfind)
  simp only [Db.log] at hget
  simp only [addProfReview, huid, hpid, hcomment, hrating, Db.log, hget]
  simp

/-- C8: with valid arguments, an existing user `u` and a professor id the
driver accepts but that no professor document carries, `addProfReview` fails
with the professor-not-found error; the professors are unchanged and were
accessed by the failed push only (no recomputation of the rating follows),
while the new review stays appended to the reviews of `u`. -/
theorem addProfReview_unknown_professor (env : Env) (uid pid comment rating : JsVal) (s : Db)
    (uid' pid' comment' : String) (rating' : Int) (uh ph : String) (u : UserDoc)
    (huid : env.inputCheck.checkUserId uid = .ok uid')
    (hpid : env.inputCheck.checkUserId pid = .ok pid')
    (hcomment : env.inputCheck.checkComment comment = .ok comment')
    (hrating : env.inputCheck.checkRating rating = .ok rating')
    (huh : env.parseObjectId uid' = some uh)
    (hph : env.parseObjectId pid' = some ph)
    (hu : s.users.find? (UserDoc.hasId (.oid uh)) = some u)
    (hnone : ∀ p ∈ s.professors, p._id ≠ .oid ph) :
    ∃ upre upost, s.users = upre ++ u :: upost ∧ (∀ x ∈ upre, x._id ≠ .oid uh) ∧
      addProfReview env uid pid comment rating s =
        (.error (.msg ("No professor found with ID of " ++ pid')),
         { users := upre ++
             { u with reviews := u.reviews ++
                 [{ _id := .str (env.freshObjectId s.nextId), userId := uid',
                    professorId := pid', username := u.username, comment := comment',
                    rating := rating' }] } :: upost
           professors := s.professors
           nextId := s.nextId + 1
           trace := s.trace ++
             [.handle .users, .handle .professors, .handle .users, .read .users,
              .write .users, .write .professors] }) := by
  obtain ⟨upre, upost, husers, hupre, hq⟩ := find_split _ _ _ hu
  refine ⟨upre, upost, husers, fun x hx => (userHasId_false_iff _ x).mp (hupre x hx), ?_⟩
  have hfind := find_hasId_none_profs (.oid ph) s.professors hnone
  have hget := getUser_found env uid' uh
    ((s.log (.handle .users)).log (.handle .professors)) u huh (by simpa [Db.log] using hu)
  have hupd := fun f => updateOne_split (UserDoc.hasId (.oid uh)) f upre u upost hupre hq
  have hpupd := fun f => updateOne_none (ProfDoc.hasId (.oid ph)) f s.professors hfind
  simp only [Db.log] at hget
  simp only [addProfReview, huid, hpid, hcomment, hrating, Db.log, hget,
    ObjectId_of_parse env uid' uh huh, ObjectId_of_parse env pid' ph hph]
  simp only [husers, hupd, hpupd]
  simp [← husers, UserDoc.pushReview]

/-- C7 at Scenario E: a well-formed user id that no user carries. -/
theorem addProfReview_unknown_user_witness :
    sampleEnv.inputCheck.checkUserId (.str "aaaaaaaaaaaaaaaaaaaaaaaa") =
        .ok "aaaaaaaaaaaaaaaaaaaaaaaa" ∧
      (∀ u ∈ sampleDb.users, u._id ≠ .oid "aaaaaaaaaaaaaaaaaaaaaaaa") ∧
      addProfReview sampleEnv (.str "aaaaaaaaaaaaaaaaaaaaaaaa") (.str "624724af974aef308ff7cc6a")
          (.str "Great") (.num 5) sampleDb =
        (.error .notFoundUser,
         { users := sampleDb.users
           professors := sampleDb.professors
           nextId := sampleDb.nextId
           trace := sampleDb.trace ++
             [.handle .users, .handle .professors, .handle .users, .read .users] }) :=
  ⟨rfl, by decide,
   addProfReview_unknown_user sampleEnv (.str "aaaaaaaaaaaaaaaaaaaaaaaa")
    (.str "624724af974aef308ff7cc6a") (.str "Great") (.num 5) sampleDb
    "aaaaaaaaaaaaaaaaaaaaaaaa" "624724af974aef308ff7cc6a" "Great" 5 "aaaaaaaaaaaaaaaaaaaaaaaa"
    rfl rfl rfl rfl rfl (by decide)⟩

/-- C8 on the sample store: a well-formed professor id that no professor carries. -/
theorem addProfReview_unknown_professor_witness :
    sampleDb.users.find? (UserDoc.hasId (.oid "62215a7ebd69a460a6193418")) = some sampleUser ∧
      (∀ p ∈ sampleDb.professors, p._id ≠ .oid "bbbbbbbbbbbbbbbbbbbbbbbb") ∧
      ∃ upre upost, sampleDb.users = upre ++ sampleUser :: upost ∧
        (∀ x ∈ upre, x._id ≠ .oid "62215a7ebd69a460a6193418") ∧
        addProfReview sampleEnv (.str "62215a7ebd69a460a6193418")
            (.str "bbbbbbbbbbbbbbbbbbbbbbbb") (.str "Great") (.num 5) sampleDb =
          (.error (.msg ("No professor found with ID of " ++ "bbbbbbbbbbbbbbbbbbbbbbbb")),
           { users := upre ++
               { sampleUser with reviews := sampleUser.reviews ++
                   [{ _id := .str (sampleEnv.freshObjectId sampleDb.nextId),
                      userId := "62215a7ebd69a460a6193418",
                      professorId := "bbbbbbbbbbbbbbbbbbbbbbbb",
                      username := sampleUser.username, comment := "Great",
                      rating := 5 }] } :: upost
             professors := sampleDb.professors
             nextId := sampleDb.nextId + 1
             trace := sampleDb.trace ++
               [.handle .users, .handle .professors, .handle .users, .read .users,
                .write .users, .write .professors] }) :=
  ⟨rfl, by decide,
   addProfReview_unknown_professor sampleEnv (.str "62215a7ebd69a460a6193418")
    (.str "bbbbbbbbbbbbbbbbbbbbbbbb") (.str "Great") (.num 5) sampleDb
    "62215a7ebd69a460a6193418" "bbbbbbbbbbbbbbbbbbbbbbbb" "Great" 5
    "62215a7ebd69a460a6193418" "bbbbbbbbbbbbbbbbbbbbbbbb" sampleUser
    rfl rfl rfl rfl rfl rfl rfl (by decide)⟩

/-- C6: an argument the identifier check rejects makes every operation that
takes an identifier fail with an error of the check and return the state it
was given, trace included: no collection was obtained, read or written.  For
`addProfReview` the rejected argument may be the user id or the professor id;
in the second case the error is that of the user id when the user id is
rejected too (it is checked first) and that of the professor id otherwise. -/
theorem identifier_rejected_before_store (env : Env) (bad : JsVal) (e : String) (s : Db)
    (h : env.inputCheck.checkUserId bad = .error e) :
    (∀ pid comment rating, addProfReview env bad pid comment rating s = (.error (.msg e), s)) ∧
    (∀ uid comment rating, ∃ e',
      addProfReview env uid bad comment rating s = (.error (.msg e'), s) ∧
      (env.inputCheck.checkUserId uid = .error e' ∨
        (e' = e ∧ ∃ uid', env.inputCheck.checkUserId uid = .ok uid'))) ∧
    removeProfReview env bad s = (.error (.msg e), s) ∧
    getProfById env bad s = (.error (.msg e), s) ∧
    (∀ updatedProf, updateProf env bad updatedProf s = (.error (.msg e), s)) ∧
    removeProf env bad s = (.error (.msg e), s) := by
  refine ⟨?_, ?_, ?_, ?_, ?_, ?_⟩
  · intro pid comment rating
    simp [addProfReview, h]
  · intro uid comment rating
    cases hu : env.inputCheck.checkUserId uid with
    | error e' => exact ⟨e', by simp [addProfReview, hu], Or.inl rfl⟩
    | ok uid' => exact ⟨e, by simp [addProfReview, hu, h], Or.inr ⟨rfl, uid', rfl⟩⟩
  · simp [removeProfReview, h]
  · simp [getProfById, h]
  · intro updatedProf
    simp [updateProf, h]
  · simp [removeProf, h]

/-- C6 at Scenario D: the argument `"not-a-valid-token"`. -/
theorem identifier_rejected_before_store_witness :
    sampleEnv.inputCheck.checkUserId (.str "not-a-valid-token") =
        .error "id is not a valid ObjectId" ∧
      removeProfReview sampleEnv (.str "not-a-valid-token") afterA =
        (.error (.msg "id is not a valid ObjectId"), afterA) :=
  ⟨rfl, (identifier_rejected_before_store sampleEnv (.str "not-a-valid-token")
    "id is not a valid ObjectId" afterA rfl).2.2.1⟩

/-- C9: whatever its argument and whether it succeeds or fails,
`removeProfReview` leaves the user collection exactly as it was; in
particular the author keeps the copy of a removed review. -/
theorem removeProfReview_keeps_users (env : Env) (id : JsVal) (s : Db) :
    (removeProfReview env id s).2.users = s.users := by
  unfold removeProfReview
  split
  · rfl
  split
  · rfl
  simp only
  split
  · rfl
  split
  · rfl
  · rfl

theorem sort_perm {α : Type} (compare : α → α → ℚ) (l : List α) : (sort compare l).Perm l :=
  List.perm_insertionSort _ l

theorem sort_rating_sorted (l : List ProfListing) :
    (sort (fun a b => toNumber b.overallRating - toNumber a.overallRating) l).Pairwise
      (fun a b => toNumber b.overallRating ≤ toNumber a.overallRating) := by
  haveI : IsTotal ProfListing
      (fun a b => toNumber b.overallRating - toNumber a.overallRating ≤ 0) :=
    ⟨fun a b => by
      rcases le_total (toNumber a.overallRating) (toNumber b.overallRating) with h | h
      · exact Or.inr (by linarith)
      · exact Or.inl (by linarith)⟩
  haveI : IsTrans ProfListing
      (fun a b => toNumber b.overallRating - toNumber a.overallRating ≤ 0) :=
    ⟨fun a b c hab hbc => by
      have h1 : toNumber b.overallRating - toNumber a.overallRating ≤ 0 := hab
      have h2 : toNumber c.overallRating - toNumber b.overallRating ≤ 0 := hbc
      show toNumber c.overallRating - toNumber a.overallRating ≤ 0
      linarith⟩
  have hs := List.sorted_insertionSort
    (fun a b : ProfListing => toNumber b.overallRating - toNumber a.overallRating ≤ 0) l
  exact List.Pairwise.imp (fun {a b} hab => by
    have h1 : toNumber b.overallRating - toNumber a.overallRating ≤ 0 := hab
    linarith) hs

/-- C10: `getTop3Professors` returns `min 3 n` of the `n` listings that
`getAllProfessors` returns (together with the listings left out they are a
rearrangement of that list), in non-increasing order of `overallRating` with
`null` counted as 0, and no listing left out has an `overallRating` above
that of a returned one. -/
theorem getTop3Professors_top (s : Db) :
    ∃ rest, ((getTop3Professors s).1 ++ rest).Perm (getAllProfessors s).1 ∧
      (getAllProfessors s).1.length = s.professors.length ∧
      (getTop3Professors s).1.length = min 3 s.professors.length ∧
      (getTop3Professors s).1.Pairwise
        (fun a b => toNumber b.overallRating ≤ toNumber a.overallRating) ∧
      ∀ x ∈ rest, ∀ y ∈ (getTop3Professors s).1,
        toNumber x.overallRating ≤ toNumber y.overallRating := by
  have hperm := sort_perm (fun a b : ProfListing =>
    toNumber b.overallRating - toNumber a.overallRating) (getAllProfessors s).1
  have hsorted := sort_rating_sorted (getAllProfessors s).1
  have hlen : (getAllProfessors s).1.length = s.professors.length := by
    simp [getAllProfessors, Db.log]
  have htop : (getTop3Professors s).1 =
      (sort (fun a b : ProfListing => toNumber b.overallRating - toNumber a.overallRating)
        (getAllProfessors s).1).take 3 := rfl
  refine ⟨(sort (fun a b : ProfListing => toNumber b.overallRating - toNumber a.overallRating)
    (getAllProfessors s).1).drop 3, ?_, hlen, ?_, ?_, ?_⟩
  · rw [htop, List.take_append_drop]
    exact hperm
  · rw [htop, List.length_take, hperm.length_eq, hlen]
  · rw [htop]
    exact hsorted.sublist (List.take_sublist _ _)
  · intro x hx y hy
    rw [htop] at hy
    rw [← List.take_append_drop 3 (sort _ (getAllProfessors s).1)] at hsorted
    exact (List.pairwise_append.mp hsorted).2.2 y hy x hx

/-- C2, evaluated: on the sample store `addProfReview` succeeds and returns
`reviewA`, whose `_id` is a string; `removeProfReview` called with that `_id`
right afterwards looks for an `ObjectId`, finds no professor and throws
`"review does not exist"`, after one read and no write: the professor keeps
`reviewA` and the rating 5 instead of getting back its empty reviews and its
absent rating. -/
theorem add_then_remove_does_not_restore :
    addProfReview sampleEnv (.str "62215a7ebd69a460a6193418") (.str "624724af974aef308ff7cc6a")
        (.str "Great") (.num 5) sampleDb = (.ok reviewA, afterA) ∧
      removeProfReview sampleEnv (.str reviewA._id.toString) afterA =
        (.error (.msg "review does not exist"),
         { afterA with trace := afterA.trace ++ [.handle .professors, .read .professors] }) ∧
      sampleDb.professors.map (fun p => (p.reviews, p.rating)) = [([], none)] ∧
      afterA.professors.map (fun p => (p.reviews, p.rating)) = [([reviewA], some 5)] := by
  refine ⟨?_, ?_, ?_, ?_⟩
  · decide!
  · decide!
  · rfl
  · rfl

/-- C3, evaluated at Scenario C: the professor holds one review rated 3 that
`addProfReview` stored, so its `_id` is the string
`"000000000000000000000000"`.  `removeProfReview` of that id throws
`"review does not exist"` and writes nothing, the professor keeping the
review and the rating 3.  Had the review been stored with an `ObjectId` as
`_id`, the same call would return `{ deleted: true }` and leave no review and
an absent rating. -/
theorem removeProfReview_misses_stored_review :
    scenarioC.professors.map (fun p => (p.reviews.map (fun r => (r._id, r.rating)), p.rating)) =
        [([(.str "000000000000000000000000", 3)], some 3)] ∧
      (removeProfReview sampleEnv (.str "000000000000000000000000") scenarioC).1 =
        .error (.msg "review does not exist") ∧
      (removeProfReview sampleEnv (.str "000000000000000000000000") scenarioC).2.professors =
        scenarioC.professors ∧
      (removeProfReview sampleEnv (.str "624724af974aef308ff7cc6b") scenarioCObjectId).1 =
        .ok { deleted := true } ∧
      (removeProfReview sampleEnv (.str "624724af974aef308ff7cc6b")
          scenarioCObjectId).2.professors.map (fun p => (p.reviews, p.rating)) =
        [([], none)] := by
  refine ⟨?_, ?_, ?_, ?_, ?_⟩ <;> decide!

/-- C5, evaluated: after `createProfessor` and one `addProfReview` rated 5, the
professor holds one review rated 5 and the recomputed mean 5 sits in its
field `rating`, while the field `overallRating` that `createProfessor`
initialised is still `null`, and `null` is what `getAllProfessors` and
`getTop3Professors` report for the professor. -/
theorem listing_reports_stale_overallRating :
    (createProfessor sampleEnv (.str "Patrick, Hill") (.str "Computer Science")
        (.str "Professor in the Computer Science department") (.str "prof.jpg") noProfDb).1 =
      .ok { sampleProf with _id := .str "000000000000000000000000" } ∧
    (addProfReview sampleEnv (.str "62215a7ebd69a460a6193418") (.str "000000000000000000000000")
        (.str "Great") (.num 5) afterCreate).1 =
      .ok { reviewA with _id := .str "000000000000000000000001",
                         professorId := "000000000000000000000000" } ∧
    afterCreateAdd.professors.map
        (fun p => (p.reviews.map (fun r => r.rating), p.rating, p.overallRating)) =
      [([5], some 5, none)] ∧
    (getAllProfessors afterCreateAdd).1.map (fun l => (l._id, l.overallRating)) =
      [("000000000000000000000000", none)] ∧
    (getTop3Professors afterCreateAdd).1.map (fun l => (l._id, l.overallRating)) =
      [("000000000000000000000000", none)] := by
  refine ⟨?_, ?_, ?_, ?_, ?_⟩ <;> decide!

end RateMyCourses
